import Mathlib

/-!
Verification of the commit-message tooling in commit-gen-ai.py.

The file contains two near-identical scripts ("variant 1" up to the first
`if __name__` block, "variant 2" after it).  Python strings are embedded as
`List Char`; Python string methods are modelled by the `py*` functions below.
Machine-level concerns (subprocess, HTTP) are modelled as oracle inputs:
the outcome of the single `requests.post` call is an `Except` value, and the
stdlib `textwrap.fill` routine is a function parameter of the formatter.
-/

namespace CommitGen

/-- Python whitespace, as used by `str.strip()` (ASCII subset). -/
def isPySpace (c : Char) : Bool :=
  c = ' ' || c = '\t' || c = '\n' || c = '\r' || c = Char.ofNat 11 || c = Char.ofNat 12

/-- `str.lstrip` restricted to a character predicate. -/
def pyLStripBy (p : Char → Bool) (l : List Char) : List Char := l.dropWhile p

/-- `str.rstrip` restricted to a character predicate. -/
def pyRStripBy (p : Char → Bool) (l : List Char) : List Char :=
  (l.reverse.dropWhile p).reverse

/-- `str.strip` restricted to a character predicate. -/
def pyStripBy (p : Char → Bool) (l : List Char) : List Char :=
  pyRStripBy p (pyLStripBy p l)

/-- Python `str.strip()` (no argument: strip whitespace at both ends). -/
def pyStrip (l : List Char) : List Char := pyStripBy isPySpace l

/-- Python `str.strip(chars)`: strip any of the given characters at both ends. -/
def pyStripChars (cs : List Char) (l : List Char) : List Char :=
  pyStripBy (fun c => cs.contains c) l

/-- Python `str.upper()` (ASCII model). -/
def pyUpper (l : List Char) : List Char := l.map Char.toUpper

/-- Python `needle in haystack` for strings. -/
def pyContains (haystack needle : List Char) : Bool :=
  match haystack with
  | [] => needle.isEmpty
  | _ :: t => needle.isPrefixOf haystack || pyContains t needle

/-- Python `haystack.startswith(p)`. -/
def pyStartsWith (p : List Char) (l : List Char) : Bool := p.isPrefixOf l

/-- Fuel-driven worker for `pyReplace`. -/
def pyReplaceAux (old new : List Char) : Nat → List Char → List Char
  | 0, l => l
  | _ + 1, [] => []
  | fuel + 1, c :: t =>
    if old ≠ [] ∧ old.isPrefixOf (c :: t) then
      new ++ pyReplaceAux old new fuel ((c :: t).drop old.length)
    else
      c :: pyReplaceAux old new fuel t

/-- Python `s.replace(old, new)` (for nonempty `old`). -/
def pyReplace (s old new : List Char) : List Char := pyReplaceAux old new s.length s

/-- Fuel-driven worker for `pySplit`. -/
def pySplitAux (sep : List Char) : Nat → List Char → List Char → List (List Char)
  | 0, cur, l => [cur.reverse ++ l]
  | _ + 1, cur, [] => [cur.reverse]
  | fuel + 1, cur, c :: t =>
    if sep.isPrefixOf (c :: t) then
      cur.reverse :: pySplitAux sep fuel [] ((c :: t).drop sep.length)
    else
      pySplitAux sep fuel (c :: cur) t

/-- Python `s.split(sep)` for a nonempty separator (keeps empty pieces). -/
def pySplit (s sep : List Char) : List (List Char) := pySplitAux sep (s.length + 1) [] s

/-- Fuel-driven worker for `pySplitOnce`. -/
def pySplitOnceAux (sep : List Char) : Nat → List Char → Option (List Char × List Char)
  | 0, _ => none
  | _ + 1, [] => none
  | fuel + 1, c :: t =>
    if sep.isPrefixOf (c :: t) then some ([], (c :: t).drop sep.length)
    else (pySplitOnceAux sep fuel t).map (fun p => (c :: p.1, p.2))

/-- Python `s.split(sep, 1)`: `some (before, after)` at the first occurrence of
`sep`, `none` when `sep` does not occur in `s`. -/
def pySplitOnce (s sep : List Char) : Option (List Char × List Char) :=
  pySplitOnceAux sep (s.length + 1) s

/-- Python `s.find(c)` for a single character, as an `Option` index. -/
def pyFindChar (c : Char) (l : List Char) : Option Nat := l.findIdx? (· = c)

/-- Python `s.rfind(c)` for a single character, as an `Option` index. -/
def pyRFindChar (c : Char) (l : List Char) : Option Nat :=
  match l.reverse.findIdx? (· = c) with
  | some i => some (l.length - 1 - i)
  | none => none

/-! ### Commit-format configuration (COMMIT_FORMAT_CONFIG, variant 1) -/

/-- `format_rules.subject.max_length` in COMMIT_FORMAT_CONFIG. -/
def subjectMaxLength : Nat := 50

/-- `format_rules.body.wrap_length` in COMMIT_FORMAT_CONFIG. -/
def bodyWrapLength : Nat := 72

/-- `format_rules.breaking_changes.prefix` in COMMIT_FORMAT_CONFIG. -/
def breakingMarker : List Char := "BREAKING CHANGE: ".toList

/-- `format_rules.footer.issue_references` in COMMIT_FORMAT_CONFIG. -/
def issueTemplate : List Char := "Soluciona: #{issue}".toList

/-! ### Variant 1 `format_commit_message` (lines 479-573) -/

/-- Subject capitalization of variant 1: `subject[0].upper() + subject[1:]`
when the subject is nonempty (the `capitalize` rule is `True` in the config). -/
def capitalizeV1 (subject : List Char) : List Char :=
  match subject with
  | [] => []
  | c :: t => c.toUpper :: t

/-- `subject[:-1]` applied when the subject is nonempty and ends with a period
(the `no_period` rule is `True` in the config). -/
def stripTrailingPeriod (subject : List Char) : List Char :=
  if subject ≠ [] ∧ subject.getLast? = some '.' then subject.dropLast else subject

/-- `subject[:max_subject_length]` applied when the subject is longer than the
configured limit. -/
def truncateV1 (subject : List Char) : List Char :=
  if subject.length > subjectMaxLength then subject.take subjectMaxLength else subject

/-- The complete subject normalization of variant 1 (lines 484-496):
capitalize, strip one trailing period, truncate to 50 characters. -/
def normSubjectV1 (subject : List Char) : List Char :=
  truncateV1 (stripTrailingPeriod (capitalizeV1 subject))

/-- Header construction of variant 1 (lines 498-502), applied to the already
normalized subject. -/
def headerV1 (commitType scope subject : List Char) : List Char :=
  if scope ≠ [] then
    commitType ++ "(".toList ++ scope ++ "): ".toList ++ subject
  else
    commitType ++ ": ".toList ++ subject

/-- The type of the `textwrap.fill` oracle: width, `subsequent_indent`, text.
The stdlib routine is not part of this repository, so the formatter is kept
parametric in it; no claim exercises a nonempty body. -/
def FillFn : Type := Nat → List Char → List Char → List Char

/-- Per-line wrapping inside a bulleted paragraph (variant 1, lines 515-530). -/
def wrapLineV1 (fill : FillFn) (line : List Char) : List Char :=
  if pyStartsWith "-".toList (pyStrip line) || pyStartsWith "*".toList (pyStrip line) then
    let indent := "  ".toList
    let bullet := [(pyStrip line).headD ' ', ' ']
    let text := pyStrip ((pyStrip line).drop 2)
    bullet ++ fill (bodyWrapLength - bullet.length - indent.length)
      (indent ++ List.replicate bullet.length ' ') text
  else
    fill bodyWrapLength [] line

/-- Per-paragraph wrapping (variant 1, lines 511-534). -/
def wrapParagraphV1 (fill : FillFn) (paragraph : List Char) : List Char :=
  if pyStartsWith "-".toList (pyStrip paragraph) || pyStartsWith "*".toList (pyStrip paragraph) then
    List.intercalate "\n".toList ((pySplit paragraph "\n".toList).map (wrapLineV1 fill))
  else
    fill bodyWrapLength [] paragraph

/-- Body formatting of variant 1 (lines 505-537): split into paragraphs at
blank lines, wrap each, rejoin with blank lines; empty body stays empty. -/
def formattedBodyV1 (fill : FillFn) (body : List Char) : List Char :=
  if body ≠ [] then
    List.intercalate "\n\n".toList ((pySplit body "\n\n".toList).map (wrapParagraphV1 fill))
  else
    []

/-- Breaking-change formatting of variant 1 (lines 539-542): add the marker
only when the text does not already start with it. -/
def formattedBreakingV1 (breaking : List Char) : List Char :=
  if breaking ≠ [] ∧ ¬ (breakingMarker.isPrefixOf breaking) then breakingMarker ++ breaking
  else breaking

/-- Fuel-driven worker for `findIssueRefs`. -/
def findIssueRefsAux : Nat → List Char → List (List Char)
  | 0, _ => []
  | _ + 1, [] => []
  | fuel + 1, c :: t =>
    if c = '#' then
      let ds := t.takeWhile Char.isDigit
      if ds ≠ [] then ds :: findIssueRefsAux fuel (t.dropWhile Char.isDigit)
      else findIssueRefsAux fuel t
    else
      findIssueRefsAux fuel t

/-- The matches of `re.findall(r'#(\d+)', footer)`: each `#` followed by a
maximal run of one or more digits, scanning left to right. -/
def findIssueRefs (l : List Char) : List (List Char) := findIssueRefsAux l.length l

/-- Footer formatting of variant 1 (lines 544-551): when the footer contains a
`#` and contains neither `Soluciona` nor `Closes`, each `#<digits>` reference
is rewritten with the issue template and the rewritten lines replace the
footer; otherwise the footer is kept unchanged. -/
def formattedFooterV1 (footer : List Char) : List Char :=
  if footer ≠ [] ∧ pyContains footer "#".toList
      ∧ ¬ pyContains footer "Soluciona".toList ∧ ¬ pyContains footer "Closes".toList then
    let refs := findIssueRefs footer
    if refs ≠ [] then
      List.intercalate "\n".toList
        (refs.map (fun r => pyReplace issueTemplate "{issue}".toList r))
    else footer
  else footer

/-- Assembly of the message parts (variant 1, lines 553-573). -/
def assembleV1 (header fbody fbreaking ffooter : List Char) : List Char :=
  let ps := [header]
  let ps := if fbody ≠ [] then ps ++ [[], fbody] else ps
  let ps := if fbreaking ≠ [] then (if fbody = [] then ps ++ [[]] else ps) ++ [fbreaking] else ps
  let ps :=
    if ffooter ≠ [] then
      (if fbody = [] ∧ fbreaking = [] then ps ++ [[]] else ps) ++ [ffooter]
    else ps
  List.intercalate "\n".toList ps

/-- Variant 1 `format_commit_message` (lines 479-573), parameterized by the
`textwrap.fill` oracle. -/
def format_commit_message_v1 (fill : FillFn)
    (commitType scope subject body breaking footer : List Char) : List Char :=
  assembleV1 (headerV1 commitType scope (normSubjectV1 subject))
    (formattedBodyV1 fill body) (formattedBreakingV1 breaking) (formattedFooterV1 footer)

/-! ### Variant 2 `format_commit_message` (lines 1475-1530) -/

/-- Subject capitalization of variant 2 (lines 1483-1484): uppercase the first
character only when it is not already an uppercase letter. -/
def capitalizeV2 (subject : List Char) : List Char :=
  match subject with
  | [] => []
  | c :: t => if ¬ c.isUpper then c.toUpper :: t else c :: t

/-- The complete subject normalization of variant 2 (lines 1482-1486):
strip surrounding whitespace, capitalize, strip one trailing period.
There is no truncation in this variant. -/
def normSubjectV2 (subject : List Char) : List Char :=
  stripTrailingPeriod (capitalizeV2 (pyStrip subject))

/-- Header construction of variant 2 (line 1489): the scope argument is
concatenated verbatim (callers pass it already parenthesized). -/
def headerV2 (commitType scope subject : List Char) : List Char :=
  commitType ++ scope ++ ": ".toList ++ subject

/-- Body formatting of variant 2 (lines 1495-1511): the body is split into
paragraphs at blank lines and rejoined; both branches of the source's bullet
check append the paragraph unchanged. -/
def formattedBodyV2 (body : List Char) : List Char :=
  List.intercalate "\n\n".toList (pySplit body "\n\n".toList)

/-- Variant 2 `format_commit_message` (lines 1475-1530).  The breaking marker
is prepended unconditionally (line 1517); the footer gets a `Soluciona: `
marker only when it starts with neither `Soluciona:` nor `Closes:`
(lines 1525-1526). -/
def format_commit_message_v2
    (commitType scope subject body breaking footer : List Char) : List Char :=
  let subj := normSubjectV2 subject
  let header := headerV2 commitType scope subj
  let ps := [header]
  let ps := if body ≠ [] then ps ++ [[], formattedBodyV2 body] else ps
  let ps :=
    if breaking ≠ [] then
      (if body = [] then ps ++ [[]] else ps) ++ ["BREAKING CHANGE: ".toList ++ breaking]
    else ps
  let ps :=
    if footer ≠ [] then
      (if body = [] ∧ breaking = [] then ps ++ [[]] else ps) ++
        [if ¬ pyStartsWith "Soluciona:".toList footer ∧ ¬ pyStartsWith "Closes:".toList footer
         then "Soluciona: ".toList ++ footer else footer]
    else ps
  List.intercalate "\n".toList ps

/-! ### Python dictionaries of string keys and string values

The commit-data dictionaries of variant 2 hold the six schema fields; they are
modelled as insertion-ordered association lists, as Python dictionaries are. -/

/-- A Python `dict` with string keys and string values. -/
abbrev PyDict : Type := List (List Char × List Char)

/-- Python `d[k]` as an `Option` (a `None` result models a `KeyError`). -/
def dictGet (d : PyDict) (k : List Char) : Option (List Char) :=
  (d.find? (fun kv => kv.1 = k)).map (fun kv => kv.2)

/-- Python `d[k]` where the key is known to be present (defaults to `""`). -/
def dictGetD (d : PyDict) (k : List Char) : List Char := (dictGet d k).getD []

/-- Python `d.setdefault(k, v)` (as the resulting dictionary). -/
def dictSetdefault (d : PyDict) (k v : List Char) : PyDict :=
  if (dictGet d k).isSome then d else d ++ [(k, v)]

/-- Python `d[k] = v` (as the resulting dictionary). -/
def dictSet (d : PyDict) (k v : List Char) : PyDict :=
  if (dictGet d k).isSome then d.map (fun kv => if kv.1 = k then (k, v) else kv)
  else d ++ [(k, v)]

/-! ### `json.loads`, restricted to flat objects with string values

The prompt of variant 2 instructs the model to reply with a JSON object of six
string fields, and every claim about the parser concerns such replies.
`json.loads` is stdlib code, not part of this repository; it is modelled here
for objects whose values are strings (standard escapes and `\uXXXX` without
surrogate pairs); any other document is modelled as a parse failure, which
sends the code to its manual fallback extraction. -/

/-- JSON whitespace. -/
def jsonWs (c : Char) : Bool := c = ' ' || c = '\t' || c = '\n' || c = '\r'

/-- Skip JSON whitespace. -/
def skipWs (l : List Char) : List Char := l.dropWhile jsonWs

/-- The value of a hexadecimal digit. -/
def hexVal (c : Char) : Option Nat :=
  if '0' ≤ c ∧ c ≤ '9' then some (c.toNat - '0'.toNat)
  else if 'a' ≤ c ∧ c ≤ 'f' then some (c.toNat - 'a'.toNat + 10)
  else if 'A' ≤ c ∧ c ≤ 'F' then some (c.toNat - 'A'.toNat + 10)
  else none

/-- Parse the body of a JSON string literal (after the opening quote); returns
the decoded content and the input following the closing quote. -/
def parseJsonStringAux : Nat → List Char → Option (List Char × List Char)
  | 0, _ => none
  | _ + 1, [] => none
  | fuel + 1, c :: t =>
    if c = '"' then some ([], t)
    else if c = '\\' then
      match t with
      | [] => none
      | e :: t2 =>
        if e = '"' then (parseJsonStringAux fuel t2).map (fun p => ('"' :: p.1, p.2))
        else if e = '\\' then (parseJsonStringAux fuel t2).map (fun p => ('\\' :: p.1, p.2))
        else if e = '/' then (parseJsonStringAux fuel t2).map (fun p => ('/' :: p.1, p.2))
        else if e = 'b' then (parseJsonStringAux fuel t2).map (fun p => (Char.ofNat 8 :: p.1, p.2))
        else if e = 'f' then (parseJsonStringAux fuel t2).map (fun p => (Char.ofNat 12 :: p.1, p.2))
        else if e = 'n' then (parseJsonStringAux fuel t2).map (fun p => ('\n' :: p.1, p.2))
        else if e = 'r' then (parseJsonStringAux fuel t2).map (fun p => ('\r' :: p.1, p.2))
        else if e = 't' then (parseJsonStringAux fuel t2).map (fun p => ('\t' :: p.1, p.2))
        else if e = 'u' then
          match t2 with
          | h1 :: h2 :: h3 :: h4 :: t3 =>
            match hexVal h1, hexVal h2, hexVal h3, hexVal h4 with
            | some a, some b, some c3, some d =>
              (parseJsonStringAux fuel t3).map
                (fun p => (Char.ofNat (((a * 16 + b) * 16 + c3) * 16 + d) :: p.1, p.2))
            | _, _, _, _ => none
          | _ => none
        else none
    else (parseJsonStringAux fuel t).map (fun p => (c :: p.1, p.2))

/-- Parse the members of a JSON object (after the opening brace), accumulating
assignments left to right as Python does; returns the dictionary and the input
following the closing brace. -/
def parseMembers : Nat → List Char → PyDict → Option (PyDict × List Char)
  | 0, _, _ => none
  | fuel + 1, l, acc =>
    match skipWs l with
    | '"' :: t =>
      match parseJsonStringAux (t.length + 1) t with
      | some (key, r1) =>
        match skipWs r1 with
        | ':' :: r2 =>
          match skipWs r2 with
          | '"' :: r3 =>
            match parseJsonStringAux (r3.length + 1) r3 with
            | some (val, r4) =>
              match skipWs r4 with
              | ',' :: r5 => parseMembers fuel r5 (dictSet acc key val)
              | '}' :: r5 => some (dictSet acc key val, r5)
              | _ => none
            | none => none
          | _ => none
        | _ => none
      | none => none
    | _ => none

/-- `json.loads` on a flat object of string values; fails on anything else or
on trailing garbage. -/
def parseJsonObject (l : List Char) : Option PyDict :=
  match skipWs l with
  | '{' :: t =>
    match skipWs t with
    | '}' :: r => if skipWs r = [] then some [] else none
    | _ =>
      match parseMembers (t.length + 1) t [] with
      | some (d, rest) => if skipWs rest = [] then some d else none
      | none => none
  | _ => none

/-! ### Variant 2 `generate_commit_message` (lines 1238-1426) -/

/-- The six-empty-field dictionary returned on any request error
(lines 1419-1426). -/
def emptyCommitDict : PyDict :=
  [("type".toList, []), ("scope".toList, []), ("subject".toList, []),
   ("body".toList, []), ("breaking".toList, []), ("footer".toList, [])]

/-- The dictionary returned when the diff is empty (lines 1242-1250); note the
source's swapped language test, which picks the English text for `lang = 'es'`. -/
def noChangesDict (lang : List Char) : PyDict :=
  [("type".toList, []), ("scope".toList, []),
   ("subject".toList,
     if lang = "es".toList then "No changes to commit".toList
     else "No hay cambios para hacer commit".toList),
   ("body".toList, []), ("breaking".toList, []), ("footer".toList, [])]

/-- The manual fallback extraction of variant 2 (lines 1354-1415), applied when
the reply cannot be parsed as JSON: the first line is split at the first colon
into a type/scope part and the subject, the body runs from the first non-blank
line after the header to the first paragraph break, the remainder is the
footer, and a `BREAKING CHANGE:` marker inside the footer text splits it into
footer and breaking text. -/
def fallbackParse (ai : List Char) : PyDict :=
  let lines := pySplit ai "\n".toList
  let header := lines.headD []
  let ts :=
    match pySplitOnce header ":".toList with
    | some (pre, post) =>
      let typeScope := pyStrip pre
      let subject := pyStrip post
      if pyContains typeScope "(".toList ∧ pyContains typeScope ")".toList then
        let commitType :=
          match pySplitOnce typeScope "(".toList with
          | some (t0, _) => pyStrip t0
          | none => pyStrip typeScope
        let scope :=
          match pySplitOnce typeScope "(".toList with
          | some (_, rest) =>
            match pySplitOnce rest ")".toList with
            | some (sc, _) => pyStrip sc
            | none => pyStrip rest
          | none => []
        (commitType, scope, subject)
      else
        (typeScope, [], subject)
    | none => ([], [], [])
  let bbf :=
    if lines.length > 1 then
      let bodyStart := 1 + ((lines.drop 1).takeWhile (fun l => pyStrip l = [])).length
      let footerStart :=
        match (List.range lines.length).find? (fun i =>
          decide (bodyStart ≤ i) && decide (pyStrip (lines.getD i []) = [])
            && decide (i + 1 < lines.length)
            && decide (pyStrip (lines.getD (i + 1) []) ≠ [])) with
        | some i => i + 1
        | none => lines.length
      let body :=
        if bodyStart < footerStart then
          pyStrip (List.intercalate "\n".toList ((lines.take footerStart).drop bodyStart))
        else []
      if footerStart < lines.length then
        let footerText := pyStrip (List.intercalate "\n".toList (lines.drop footerStart))
        if pyContains footerText "BREAKING CHANGE:".toList then
          match pySplitOnce footerText "BREAKING CHANGE:".toList with
          | some (pre, post) => (body, pyStrip post, pyStrip pre)
          | none => (body, [], footerText)
        else (body, [], footerText)
      else (body, [], [])
    else ([], [], [])
  [("type".toList, ts.1), ("scope".toList, ts.2.1), ("subject".toList, ts.2.2),
   ("body".toList, bbf.1), ("breaking".toList, bbf.2.1), ("footer".toList, bbf.2.2)]

/-- Variant 2 `generate_commit_message` (lines 1238-1426).  The prompt
construction has no effect on the returned value and is elided; `response`
models the outcome of the try-block around the single `requests.post` call:
either the extracted reply content or the raised exception.  On success the
reply is stripped of surrounding quotes and whitespace, the slice between its
first `{` and last `}` is given to the JSON parser (with the six schema fields
defaulted to empty afterwards), and the manual fallback extraction runs when no
such slice parses. -/
def generate_commit_message_v2 (diff lang : List Char)
    (response : Except String (List Char)) : PyDict :=
  if diff = [] then noChangesDict lang
  else
    match response with
    | .error _ => emptyCommitDict
    | .ok content =>
      let ai := pyStrip (pyStripChars ['"', Char.ofNat 39] content)
      let parsed :=
        match pyFindChar '{' ai, pyRFindChar '}' ai with
        | some js, some je => parseJsonObject ((ai.take (je + 1)).drop js)
        | _, _ => none
      match parsed with
      | some d =>
        let d := dictSetdefault d "type".toList []
        let d := dictSetdefault d "scope".toList []
        let d := dictSetdefault d "subject".toList []
        let d := dictSetdefault d "body".toList []
        let d := dictSetdefault d "breaking".toList []
        let d := dictSetdefault d "footer".toList []
        d
      | none => fallbackParse ai

/-! ### Variant 1 `generate_commit_message` (lines 316-426) -/

/-- Variant 1 `generate_commit_message`.  The prompt construction has no
effect on the returned value and is elided; `response` models the outcome of
the try-block around the single `requests.post` call: the extracted reply
content, or the raised exception, in which case the function returns the empty
string (lines 424-426).  An empty diff short-circuits to a fixed text
(lines 318-319). -/
def generate_commit_message_v1 (diff lang : List Char)
    (response : Except String (List Char)) : List Char :=
  if diff = [] then
    if lang = "en".toList then "No changes to commit".toList
    else "No hay cambios para hacer commit".toList
  else
    match response with
    | .ok content => pyStrip content
    | .error _ => []

/-! ### Variant 2 `create_new_commit` (lines 1794-1949)

Each pass of the `while True` loop regenerates a draft, records it in the
in-memory history, displays it, and handles one menu choice.  The loop-top
recording (lines 1809-1829) and the per-choice handling (lines 1880-1949) are
modelled separately and composed in `loopIterV2`. -/

/-- The review-loop state of variant 2: the draft history and the current
index (`-1` before the first draft is recorded, as in line 1807). -/
structure ReviewState where
  history : List PyDict
  idx : Int
deriving DecidableEq

/-- The state before the first loop pass (lines 1806-1807). -/
def initReview : ReviewState := { history := [], idx := -1 }

/-- Recording a freshly generated draft at the top of the loop
(lines 1818-1829): the first draft is appended at index 0; afterwards every
draft beyond the current index is discarded and the new draft is appended as
the new last element. -/
def pushDraft (st : ReviewState) (d : PyDict) : ReviewState :=
  if st.idx < 0 then { history := st.history ++ [d], idx := 0 }
  else
    let h :=
      if st.idx < (st.history.length : Int) - 1 then st.history.take (st.idx.toNat + 1)
      else st.history
    { history := h ++ [d], idx := (h.length : Int) }

/-- The header built by `create_new_commit` (lines 1839-1843):
`type(scope): subject`, the scope parenthesized only when non-empty.
The six schema keys are present in every dictionary that reaches this point,
so the `KeyError`-free access is modelled with an empty-string default. -/
def headerOfData (d : PyDict) : List Char :=
  dictGetD d "type".toList ++
    (if dictGetD d "scope".toList ≠ [] then
      "(".toList ++ dictGetD d "scope".toList ++ ")".toList
     else []) ++
    ": ".toList ++ dictGetD d "subject".toList

/-- The full message assembled by `create_new_commit` (lines 1862-1869):
header, then body, breaking text (with an unconditional marker) and footer,
each separated by a blank line and skipped when empty. -/
def assembleMessageV2 (d : PyDict) : List Char :=
  headerOfData d ++
    (if dictGetD d "body".toList ≠ [] then "\n\n".toList ++ dictGetD d "body".toList else []) ++
    (if dictGetD d "breaking".toList ≠ [] then
      "\n\nBREAKING CHANGE: ".toList ++ dictGetD d "breaking".toList
     else []) ++
    (if dictGetD d "footer".toList ≠ [] then "\n\n".toList ++ dictGetD d "footer".toList else [])

/-- The raw texts the user types at the six edit prompts of the `E` branch
(lines 1911-1925); an empty entry keeps the current field. -/
structure EditInputs where
  typeIn : List Char
  scopeIn : List Char
  subjectIn : List Char
  bodyIn : List Char
  breakingIn : List Char
  footerIn : List Char
deriving DecidableEq

/-- Edit inputs that keep every field. -/
def keepAll : EditInputs := ⟨[], [], [], [], [], []⟩

/-- The edited dictionary built in the `E` branch (lines 1911-1935): each
field falls back to the current value when the stripped input is empty, and
`|` marks line breaks in the body. -/
def mergeEdit (cur : PyDict) (e : EditInputs) : PyDict :=
  let pick (inp key : List Char) : List Char :=
    let s := pyStrip inp
    if s ≠ [] then s else dictGetD cur key
  let body :=
    let b := pyStrip e.bodyIn
    if b ≠ [] then pyReplace b "|".toList "\n".toList else dictGetD cur "body".toList
  [("type".toList, pick e.typeIn "type".toList),
   ("scope".toList, pick e.scopeIn "scope".toList),
   ("subject".toList, pick e.subjectIn "subject".toList),
   ("body".toList, body),
   ("breaking".toList, pick e.breakingIn "breaking".toList),
   ("footer".toList, pick e.footerIn "footer".toList)]

/-- The possible outcomes of one pass of the variant 2 loop. -/
inductive StepOutcomeV2 where
  /-- `git commit -m` ran with the given message and the loop ended. -/
  | committed : List Char → StepOutcomeV2
  /-- The `C` branch ended the loop with no commit. -/
  | cancelled : StepOutcomeV2
  /-- The loop continues with this state (the next pass regenerates). -/
  | review : ReviewState → StepOutcomeV2
  /-- An uncaught `KeyError` for the given key aborted the loop. -/
  | keyError : List Char → StepOutcomeV2
  /-- The generation-failure check (line 1814-1816) returned from the function. -/
  | genFailed : StepOutcomeV2
deriving DecidableEq

/-- The menu-choice handling of variant 2 (lines 1880-1949).  The state is the
one produced by `pushDraft`, so the current index points at the last recorded
draft; `formatted_message` as displayed and committed is recomputed from the
current draft each pass (lines 1862-1869).  The `P` and `N` branches read the
`"formatted"` key of the chosen draft (lines 1896 and 1900); no draft ever
carries that key, and a missing key is a `KeyError`. -/
def handleChoiceV2 (st : ReviewState) (input : List Char) (e : EditInputs) : StepOutcomeV2 :=
  let choice := pyUpper (pyStrip input)
  let current := st.history.getD st.idx.toNat []
  let formatted := assembleMessageV2 current
  if choice = "A".toList then .committed formatted
  else if choice = "R".toList then .review st
  else if choice = "P".toList ∧ st.idx > 0 then
    let j := st.idx - 1
    match dictGet (st.history.getD j.toNat []) "formatted".toList with
    | some _ => .review { st with idx := j }
    | none => .keyError "formatted".toList
  else if choice = "N".toList ∧ st.idx < (st.history.length : Int) - 1 then
    let j := st.idx + 1
    match dictGet (st.history.getD j.toNat []) "formatted".toList with
    | some _ => .review { st with idx := j }
    | none => .keyError "formatted".toList
  else if choice = "E".toList then
    let h :=
      if st.idx < (st.history.length : Int) - 1 then st.history.take (st.idx.toNat + 1)
      else st.history
    .review { history := h ++ [mergeEdit current e], idx := (h.length : Int) }
  else if choice = "C".toList then .cancelled
  else .review st

/-- One full pass of the variant 2 loop: generate (`gen` is the dictionary the
generator returned), bail out when it is empty or has no subject
(lines 1814-1816), otherwise record the draft and handle one choice. -/
def loopIterV2 (st : ReviewState) (gen : PyDict) (input : List Char)
    (e : EditInputs) : StepOutcomeV2 :=
  if gen = [] ∨ (dictGet gen "subject".toList).getD [] = [] then .genFailed
  else handleChoiceV2 (pushDraft st gen) input e

/-! ### Variant 1 `create_new_commit` review loop (lines 805-872)

Variant 1 keeps the generated text (a plain string) in `formatted_message`,
with a history list for the record; the loop body only handles the menu
choice, so a single step function models it. -/

/-- The review-loop state of variant 1 (lines 805-807 and the loop locals). -/
structure ReviewStateV1 where
  history : List (List Char)
  idx : Nat
  formatted : List Char
deriving DecidableEq

/-- The possible outcomes of one pass of the variant 1 loop. -/
inductive StepOutcomeV1 where
  /-- `git commit -m` ran with the given message and the loop ended. -/
  | committed : List Char → StepOutcomeV1
  /-- The `C` branch ended the loop with no commit. -/
  | cancelled : StepOutcomeV1
  /-- The loop continues with this state. -/
  | review : ReviewStateV1 → StepOutcomeV1
deriving DecidableEq

/-- The menu-choice handling of variant 1 (lines 824-872).  `regen` is the
string the generator returned in the `R` branch (kept only when non-empty,
lines 838-844) and `edited` the replacement text gathered in the `E` branch
(lines 854-865). -/
def handleChoiceV1 (st : ReviewStateV1) (input regen edited : List Char) : StepOutcomeV1 :=
  let choice := pyUpper (pyStrip input)
  if choice = "A".toList then .committed st.formatted
  else if choice = "R".toList then
    if regen ≠ [] then
      .review { history := st.history ++ [regen], idx := st.history.length, formatted := regen }
    else .review st
  else if choice = "E".toList then
    .review { history := st.history ++ [edited], idx := st.history.length, formatted := edited }
  else if choice = "C".toList then .cancelled
  else .review st

/-! ### CLI `stage` dispatch (variant 2, lines 2145-2163 and 2541-2545) -/

/-- The effect of one `stage_changes` call. -/
inductive StageAction where
  /-- `git add .` ran (the `all_files` branch). -/
  | gitAddAll : StageAction
  /-- `git add <file>` ran once per listed file. -/
  | gitAddFiles : List (List Char) → StageAction
  /-- The `no files specified` message was printed and nothing ran. -/
  | noFilesMessage : StageAction
deriving DecidableEq

/-- `stage_changes` (lines 2145-2163): `files` is `none` when the parameter
keeps its `None` default; the `elif files` test is true only for a non-empty
list. -/
def stage_changes (files : Option (List (List Char))) (allFiles : Bool) : StageAction :=
  if allFiles then .gitAddAll
  else
    match files with
    | some fs => if fs ≠ [] then .gitAddFiles fs else .noFilesMessage
    | none => .noFilesMessage

/-- The argument pair `(files, all_files)` the `stage` dispatcher passes to
`stage_changes` (lines 2541-2545): `stage --all` and `stage` with an empty
file list both call `stage_changes(all_files=True)`. -/
def dispatchStage (files : List (List Char)) (allFlag : Bool) :
    Option (List (List Char)) × Bool :=
  if allFlag ∨ files = [] then (none, true) else (some files, false)

/-! ### Concrete inputs used by individual claims -/

/-- A canned staged diff (any non-empty diff takes the same code path). -/
def cannedDiff : List Char := "diff --git a/core.py b/core.py\n-raise\n+handle".toList

/-- The stubbed remote reply of claim C3. -/
def stubJsonC3 : List Char :=
  "\x7b\"type\":\"fix\",\"scope\":\"core\",\"subject\":\"Fix crash\",\"body\":\"\",\"breaking\":\"\",\"footer\":\"\"\x7d".toList

/-- A first well-formed stubbed remote reply for the review-loop claims. -/
def stubJsonA : List Char :=
  "\x7b\"type\":\"feat\",\"scope\":\"\",\"subject\":\"Add login\",\"body\":\"\",\"breaking\":\"\",\"footer\":\"\"\x7d".toList

/-- A second well-formed stubbed remote reply for the review-loop claims. -/
def stubJsonB : List Char :=
  "\x7b\"type\":\"fix\",\"scope\":\"ui\",\"subject\":\"Fix layout\",\"body\":\"\",\"breaking\":\"\",\"footer\":\"\"\x7d".toList

/-- A third well-formed stubbed remote reply for the review-loop claims. -/
def stubJsonC : List Char :=
  "\x7b\"type\":\"docs\",\"scope\":\"\",\"subject\":\"Update readme\",\"body\":\"\",\"breaking\":\"\",\"footer\":\"\"\x7d".toList

/-- The draft dictionary generated from `stubJsonA`. -/
def draftA : PyDict := generate_commit_message_v2 cannedDiff "es".toList (.ok stubJsonA)

/-- The draft dictionary generated from `stubJsonB`. -/
def draftB : PyDict := generate_commit_message_v2 cannedDiff "es".toList (.ok stubJsonB)

/-- The draft dictionary generated from `stubJsonC`. -/
def draftC : PyDict := generate_commit_message_v2 cannedDiff "es".toList (.ok stubJsonC)

/-- An over-long subject ending in a period (52 characters). -/
def subjC1 : List Char := List.replicate 51 'a' ++ ['.']

/-- An over-long subject ending in a period (53 characters). -/
def subjC6 : List Char := List.replicate 52 'a' ++ ['.']

/-- A breaking-change text that already starts with the marker. -/
def brkC2 : List Char := "BREAKING CHANGE: drop the v1 API".toList

/-- A trivial `textwrap.fill` oracle (no claim exercises a non-empty body). -/
def fillId : FillFn := fun _ _ text => text

end CommitGen

namespace CommitGen

/-! ### Helper lemmas -/

theorem toUpper_of_isUpper (c : Char) (h : c.isUpper = true) : c.toUpper = c := by
  simp [Char.isUpper] at h
  simp [Char.toUpper, Char.isLower]
  intro h1 _
  obtain ⟨_, hb⟩ := h
  exact absurd (le_trans h1 hb) (by norm_num)

theorem length_capitalizeV1 (s : List Char) : (capitalizeV1 s).length = s.length := by
  cases s <;> simp [capitalizeV1]

theorem length_capitalizeV2 (s : List Char) : (capitalizeV2 s).length = s.length := by
  cases s with
  | nil => rfl
  | cons c t => by_cases hc : c.isUpper <;> simp [capitalizeV2, hc]

theorem getLast?_capitalizeV1 (s : List Char) (h : s.getLast? = some '.') :
    (capitalizeV1 s).getLast? = some '.' := by
  match s with
  | [] => simp at h
  | [c] =>
    simp at h
    subst h
    decide
  | c :: x :: t =>
    simp only [capitalizeV1]
    rw [List.getLast?_cons_cons] at h ⊢
    exact h

theorem getLast?_capitalizeV2_eq (s : List Char) (h : 2 ≤ s.length) :
    (capitalizeV2 s).getLast? = s.getLast? := by
  match s with
  | [] => simp at h
  | [c] => simp at h
  | c :: x :: t =>
    by_cases hc : c.isUpper <;>
      simp [capitalizeV2, hc, List.getLast?_cons_cons]

theorem getLast?_capitalizeV2 (s : List Char) (h : s.getLast? = some '.') :
    (capitalizeV2 s).getLast? = some '.' := by
  match s with
  | [] => simp at h
  | [c] =>
    simp at h
    subst h
    decide
  | c :: x :: t =>
    rw [getLast?_capitalizeV2_eq _ (by simp)]
    exact h

theorem stripTrailingPeriod_of_period (s : List Char) (h : s.getLast? = some '.') :
    stripTrailingPeriod s = s.dropLast := by
  have hne : s ≠ [] := by rintro rfl; simp at h
  simp [stripTrailingPeriod, hne, h]

theorem stripTrailingPeriod_of_no_period (s : List Char) (h : s.getLast? ≠ some '.') :
    stripTrailingPeriod s = s := by
  simp [stripTrailingPeriod, h]

theorem truncateV1_eq_take (l : List Char) : truncateV1 l = l.take subjectMaxLength := by
  unfold truncateV1
  split
  · rfl
  · next h => exact (List.take_of_length_le (by omega)).symm

theorem isPrefixOf_append_self (a b : List Char) : a.isPrefixOf (a ++ b) = true := by
  rw [List.isPrefixOf_iff_prefix]
  exact List.prefix_append a b

theorem intercalate_pair (sep a b : List Char) :
    List.intercalate sep [a, b] = a ++ sep ++ b := by
  simp [List.intercalate, List.intersperse]

theorem intercalate_triple (sep a b c : List Char) :
    List.intercalate sep [a, b, c] = a ++ sep ++ b ++ sep ++ c := by
  simp [List.intercalate, List.intersperse]

theorem replace_issueTemplate (r : List Char) :
    pyReplace issueTemplate "{issue}".toList r = "Soluciona: #".toList ++ r := by
  simp [pyReplace, issueTemplate, pyReplaceAux]

theorem replace_issueTemplate' (r : List Char) :
    pyReplace issueTemplate ['{', 'i', 's', 's', 'u', 'e', '}'] r
      = "Soluciona: #".toList ++ r := by
  simp [pyReplace, issueTemplate, pyReplaceAux]

theorem intercalate_cons_ne_nil (sep a : List Char) (l : List (List Char)) (ha : a ≠ []) :
    List.intercalate sep (a :: l) ≠ [] := by
  cases l <;> simp [List.intercalate, List.intersperse, ha]

/-! ### Claim theorems -/

/-- Claim C3: when the remote reply handed to the second variant's parser is
exactly the JSON object with type `fix`, scope `core`, subject `Fix crash` and
empty body, breaking and footer fields, the commit message assembled by
`create_new_commit` is exactly the single line `fix(core): Fix crash`; and in
general the assembled header is `type(scope): subject` for a non-empty scope
and `type: subject` for an empty one. -/
theorem claim_C3_stub_assembly :
    assembleMessageV2 (generate_commit_message_v2 cannedDiff "es".toList (.ok stubJsonC3))
        = "fix(core): Fix crash".toList
    ∧ (∀ t sc su : List Char,
        headerOfData
            [("type".toList, t), ("scope".toList, sc), ("subject".toList, su),
             ("body".toList, []), ("breaking".toList, []), ("footer".toList, [])]
          = if sc = [] then t ++ ": ".toList ++ su
            else t ++ "(".toList ++ sc ++ "): ".toList ++ su) := by
  constructor
  · decide
  · intro t sc su
    have hsplit : ("): ".toList : List Char) = ")".toList ++ ": ".toList := by decide
    by_cases hsc : sc = [] <;>
      simp [headerOfData, dictGetD, dictGet, List.find?, hsc, hsplit]

/-- Claim C4: when the single remote POST raises a transport or HTTP error,
both variants of `generate_commit_message` swallow the exception and return an
empty result: the empty string in variant 1, and the dictionary with all six
fields empty in variant 2. -/
theorem claim_C4_error_empty (e : String) (diff lang : List Char) (hd : diff ≠ []) :
    generate_commit_message_v1 diff lang (.error e) = []
    ∧ generate_commit_message_v2 diff lang (.error e) = emptyCommitDict := by
  constructor <;> simp [generate_commit_message_v1, generate_commit_message_v2, hd]

/-- Witness for claim C4 at a concrete error and diff. -/
theorem claim_C4_error_empty_witness :
    generate_commit_message_v1 cannedDiff "en".toList (.error "connection timeout") = []
    ∧ generate_commit_message_v2 cannedDiff "en".toList (.error "connection timeout")
        = emptyCommitDict :=
  claim_C4_error_empty "connection timeout" cannedDiff "en".toList (by decide)

/-- Claim C9, failing-input evaluation: in the second variant's review loop,
after one generated draft is reviewed with choice `r` and a second draft is
generated, the enabled choice `previous` does not re-display the earlier
draft: it looks up the `formatted` key, which no draft dictionary carries, so
the loop aborts with a `KeyError` instead of navigating. -/
theorem claim_C9_previous_keyerror :
    loopIterV2 initReview draftA "r".toList keepAll
        = .review { history := [draftA], idx := 0 }
    ∧ loopIterV2 { history := [draftA], idx := 0 } draftB "p".toList keepAll
        = .keyError "formatted".toList := by
  constructor <;> decide

/-- Claim C10: the CLI subcommand `stage` with no file arguments and no
`--all` flag makes the dispatcher pass `all_files=True` to `stage_changes`,
exactly as `stage --all` does (staging every change); and no argument vector
reaching the dispatcher can hit the `no files specified` branch. -/
theorem claim_C10_stage_default_all :
    dispatchStage [] false = dispatchStage [] true
    ∧ dispatchStage [] false = (none, true)
    ∧ stage_changes none true = .gitAddAll
    ∧ (∀ (files : List (List Char)) (allFlag : Bool),
        stage_changes (dispatchStage files allFlag).1 (dispatchStage files allFlag).2
          ≠ .noFilesMessage) := by
  refine ⟨by decide, by decide, by decide, ?_⟩
  intro files allFlag
  unfold dispatchStage
  by_cases h : allFlag ∨ files = []
  · simp [h, stage_changes]
  · push_neg at h
    simp [h, stage_changes, h.2]

/-- Claim C1, counterexample: a 52-character subject ending in a period is
over-long, yet the second variant changes its length (the trailing period is
stripped), so variant 2 does not leave every over-long subject's length
unchanged. -/
theorem claim_C1_counterexample :
    subjC1.length > 50
    ∧ (normSubjectV2 subjC1).length ≠ subjC1.length
    ∧ format_commit_message_v2 "fix".toList [] subjC1 [] [] []
        = "fix: ".toList ++ ('A' :: List.replicate 50 'a') := by
  refine ⟨by decide, by decide, by decide⟩

/-- Claim C2, counterexample: the second variant prepends the marker
unconditionally, so a breaking text that already starts with
`BREAKING CHANGE: ` appears with the marker doubled in the produced message. -/
theorem claim_C2_counterexample :
    format_commit_message_v2 "feat".toList [] "Subject".toList [] brkC2 []
        = "feat: Subject\n\nBREAKING CHANGE: BREAKING CHANGE: drop the v1 API".toList
    ∧ pyContains (format_commit_message_v2 "feat".toList [] "Subject".toList [] brkC2 [])
        "BREAKING CHANGE: BREAKING CHANGE: ".toList = true := by
  refine ⟨by decide, by decide⟩

/-- Claim C5, counterexample: a footer containing the issue reference `#42`
is not rewritten into the issue template when it also contains `Closes` — the
first variant leaves it untouched and no `Soluciona` line is produced. -/
theorem claim_C5_counterexample :
    format_commit_message_v1 fillId "fix".toList [] "S".toList [] [] "Closes: #42".toList
        = "fix: S\n\nCloses: #42".toList
    ∧ pyContains
        (format_commit_message_v1 fillId "fix".toList [] "S".toList [] [] "Closes: #42".toList)
        "Soluciona".toList = false := by
  refine ⟨by decide, by decide⟩

/-- Claim C6, counterexample: for a 53-character subject ending in a period,
the subject used in variant 1's header is not the capitalized input with its
final character dropped — truncation to 50 characters intervenes. -/
theorem claim_C6_counterexample :
    subjC6.getLast? = some '.'
    ∧ normSubjectV1 subjC6 ≠ (capitalizeV1 subjC6).dropLast
    ∧ (normSubjectV1 subjC6).length = 50 := by
  refine ⟨by decide, by decide, by decide⟩

/-- Claim C1, amended: for every subject longer than 50 characters, variant 1
uses in its header exactly the first 50 characters of the capitalized,
period-stripped subject (hence a subject of exactly 50 characters), while
variant 2 applies no truncation at all: its header subject is the
whitespace-stripped, capitalized subject with one trailing period removed, so
its length equals the input's whenever the input has no surrounding whitespace
and no trailing period; neither variant rejects the input or warns. -/
theorem claim_C1_amended (s : List Char) (hlen : s.length > 50) :
    (normSubjectV1 s = (stripTrailingPeriod (capitalizeV1 s)).take subjectMaxLength
      ∧ (normSubjectV1 s).length = subjectMaxLength)
    ∧ (pyStrip s = s → s.getLast? ≠ some '.' →
        normSubjectV2 s = capitalizeV2 s ∧ (normSubjectV2 s).length = s.length) := by
  have hkey : normSubjectV1 s = (stripTrailingPeriod (capitalizeV1 s)).take subjectMaxLength := by
    unfold normSubjectV1
    rw [truncateV1_eq_take]
  have hstriplen : 50 ≤ (stripTrailingPeriod (capitalizeV1 s)).length := by
    unfold stripTrailingPeriod
    split
    · rw [List.length_dropLast, length_capitalizeV1]
      omega
    · rw [length_capitalizeV1]
      omega
  refine ⟨⟨hkey, ?_⟩, ?_⟩
  · rw [hkey, List.length_take]
    simp only [subjectMaxLength] at hstriplen ⊢
    omega
  · intro hs hp
    have h2 : normSubjectV2 s = capitalizeV2 s := by
      unfold normSubjectV2
      rw [hs, stripTrailingPeriod_of_no_period]
      rw [getLast?_capitalizeV2_eq s (by omega)]
      exact hp
    exact ⟨h2, by rw [h2, length_capitalizeV2]⟩

/-- Witness for claim C1 (amended) at a 51-character subject. -/
theorem claim_C1_amended_witness :
    (normSubjectV1 (List.replicate 51 'a')
        = (stripTrailingPeriod (capitalizeV1 (List.replicate 51 'a'))).take subjectMaxLength
      ∧ (normSubjectV1 (List.replicate 51 'a')).length = subjectMaxLength)
    ∧ (normSubjectV2 (List.replicate 51 'a') = capitalizeV2 (List.replicate 51 'a')
      ∧ (normSubjectV2 (List.replicate 51 'a')).length = (List.replicate 51 'a').length) :=
  ⟨(claim_C1_amended (List.replicate 51 'a') (by decide)).1,
   (claim_C1_amended (List.replicate 51 'a') (by decide)).2 (by decide) (by decide)⟩

/-- Claim C6, amended: for every subject ending in a period, exactly one
trailing period is removed after capitalization; variant 1 then truncates, so
its header subject is the first 50 characters of the capitalized input with
the final character dropped — the whole of it whenever the input has at most
51 characters — and variant 2, on inputs without surrounding whitespace, uses
the capitalized input with the final character dropped unchanged (an input
ending in several periods keeps all but the last one). -/
theorem claim_C6_amended (s : List Char) (hp : s.getLast? = some '.') :
    normSubjectV1 s = ((capitalizeV1 s).dropLast).take subjectMaxLength
    ∧ (s.length ≤ 51 → normSubjectV1 s = (capitalizeV1 s).dropLast)
    ∧ (pyStrip s = s → normSubjectV2 s = (capitalizeV2 s).dropLast) := by
  have hcap : (capitalizeV1 s).getLast? = some '.' := getLast?_capitalizeV1 s hp
  have h1 : normSubjectV1 s = ((capitalizeV1 s).dropLast).take subjectMaxLength := by
    unfold normSubjectV1
    rw [stripTrailingPeriod_of_period _ hcap, truncateV1_eq_take]
  refine ⟨h1, ?_, ?_⟩
  · intro hlen
    rw [h1]
    apply List.take_of_length_le
    rw [List.length_dropLast, length_capitalizeV1]
    simp only [subjectMaxLength]
    omega
  · intro hs
    unfold normSubjectV2
    rw [hs, stripTrailingPeriod_of_period _ (getLast?_capitalizeV2 s hp)]

/-- Witness for claim C6 (amended) at a subject ending in two periods. -/
theorem claim_C6_amended_witness :
    normSubjectV1 "stop..".toList = ((capitalizeV1 "stop..".toList).dropLast).take subjectMaxLength
    ∧ normSubjectV1 "stop..".toList = (capitalizeV1 "stop..".toList).dropLast
    ∧ normSubjectV2 "stop..".toList = (capitalizeV2 "stop..".toList).dropLast :=
  ⟨(claim_C6_amended "stop..".toList (by decide)).1,
   (claim_C6_amended "stop..".toList (by decide)).2.1 (by decide),
   (claim_C6_amended "stop..".toList (by decide)).2.2 (by decide)⟩

theorem formattedBreakingV1_ne_nil (b : List Char) (hb : b ≠ []) :
    formattedBreakingV1 b ≠ [] := by
  unfold formattedBreakingV1
  split
  · intro h
    exact hb (List.append_eq_nil.mp h).2
  · exact hb

/-- Claim C2, amended: for every non-empty breaking argument, variant 1
prefixes the text with the literal marker exactly when the text does not
already start with it, so its marker is always present and the prefixing never
doubles it; variant 2 prepends the marker unconditionally, so a text that
already starts with the marker appears doubled in its message. -/
theorem claim_C2_amended (fill : FillFn) (t sc su b : List Char) (hb : b ≠ []) :
    formattedBreakingV1 b = (if breakingMarker.isPrefixOf b then b else breakingMarker ++ b)
    ∧ breakingMarker.isPrefixOf (formattedBreakingV1 b) = true
    ∧ format_commit_message_v1 fill t sc su [] b [] =
        headerV1 t sc (normSubjectV1 su) ++ "\n\n".toList ++ formattedBreakingV1 b
    ∧ format_commit_message_v2 t sc su [] b [] =
        headerV2 t sc (normSubjectV2 su) ++ "\n\nBREAKING CHANGE: ".toList ++ b := by
  have hnn := formattedBreakingV1_ne_nil b hb
  have hsep : ("\n\n".toList : List Char) = "\n".toList ++ "\n".toList := by decide
  refine ⟨?_, ?_, ?_, ?_⟩
  · unfold formattedBreakingV1
    by_cases hpfx : breakingMarker.isPrefixOf b <;> simp [hb, hpfx]
  · unfold formattedBreakingV1
    by_cases hpfx : breakingMarker.isPrefixOf b = true
    · simp [hb, hpfx]
    · simp [hb, hpfx, isPrefixOf_append_self]
  · unfold format_commit_message_v1
    have hbody : formattedBodyV1 fill [] = [] := by simp [formattedBodyV1]
    have hfoot : formattedFooterV1 [] = [] := by simp [formattedFooterV1]
    rw [hbody, hfoot]
    unfold assembleV1
    simp [hnn, intercalate_triple, hsep, List.append_assoc]
  · have hsep2 : ("\n\nBREAKING CHANGE: ".toList : List Char)
        = "\n".toList ++ "\n".toList ++ "BREAKING CHANGE: ".toList := by decide
    unfold format_commit_message_v2
    simp [hb, intercalate_triple, hsep2, List.append_assoc]

/-- Witness for claim C2 (amended) at concrete arguments. -/
theorem claim_C2_amended_witness :
    formattedBreakingV1 "drop".toList
        = (if breakingMarker.isPrefixOf "drop".toList then "drop".toList
           else breakingMarker ++ "drop".toList)
    ∧ breakingMarker.isPrefixOf (formattedBreakingV1 "drop".toList) = true
    ∧ format_commit_message_v1 fillId "feat".toList [] "S".toList [] "drop".toList [] =
        headerV1 "feat".toList [] (normSubjectV1 "S".toList) ++ "\n\n".toList
          ++ formattedBreakingV1 "drop".toList
    ∧ format_commit_message_v2 "feat".toList [] "S".toList [] "drop".toList [] =
        headerV2 "feat".toList [] (normSubjectV2 "S".toList) ++ "\n\nBREAKING CHANGE: ".toList
          ++ "drop".toList :=
  claim_C2_amended fillId "feat".toList [] "S".toList "drop".toList (by decide)

/-- Claim C5, amended: the first variant rewrites a footer into issue-template
lines — one `Soluciona: #<number>` line per `#<number>` reference found,
joined by newlines — only when the footer contains a `#` and contains neither
`Soluciona` nor `Closes` anywhere; the second variant never rewrites
per-reference, it prepends `Soluciona: ` to the whole footer exactly when the
footer starts with neither `Soluciona:` nor `Closes:`. -/
theorem claim_C5_amended (fill : FillFn) (t sc su footer : List Char)
    (h1 : footer ≠ []) (h2 : pyContains footer "#".toList = true)
    (h3 : pyContains footer "Soluciona".toList = false)
    (h4 : pyContains footer "Closes".toList = false)
    (h5 : findIssueRefs footer ≠ []) :
    formattedFooterV1 footer
        = List.intercalate "\n".toList
            ((findIssueRefs footer).map (fun r => "Soluciona: #".toList ++ r))
    ∧ format_commit_message_v1 fill t sc su [] [] footer
        = headerV1 t sc (normSubjectV1 su) ++ "\n\n".toList ++ formattedFooterV1 footer
    ∧ (pyStartsWith "Soluciona:".toList footer = false →
       pyStartsWith "Closes:".toList footer = false →
        format_commit_message_v2 t sc su [] [] footer
          = headerV2 t sc (normSubjectV2 su) ++ "\n\n".toList
              ++ ("Soluciona: ".toList ++ footer)) := by
  have hsep : ("\n\n".toList : List Char) = "\n".toList ++ "\n".toList := by decide
  simp only [String.toList] at h2 h3 h4
  have hf : formattedFooterV1 footer
      = List.intercalate "\n".toList
          ((findIssueRefs footer).map (fun r => "Soluciona: #".toList ++ r)) := by
    unfold formattedFooterV1
    simp [h1, h2, h3, h4, h5, replace_issueTemplate, replace_issueTemplate']
  have hfn : formattedFooterV1 footer ≠ [] := by
    rw [hf]
    obtain ⟨r0, rest, hr⟩ : ∃ r0 rest, findIssueRefs footer = r0 :: rest := by
      cases hrf : findIssueRefs footer with
      | nil => exact absurd hrf h5
      | cons a l => exact ⟨a, l, rfl⟩
    rw [hr]
    simp only [List.map_cons]
    apply intercalate_cons_ne_nil
    simp
  refine ⟨hf, ?_, ?_⟩
  · unfold format_commit_message_v1
    have hbody : formattedBodyV1 fill [] = [] := by simp [formattedBodyV1]
    have hbrk : formattedBreakingV1 [] = [] := by simp [formattedBreakingV1]
    rw [hbody, hbrk]
    unfold assembleV1
    simp [hfn, intercalate_triple, hsep, List.append_assoc]
  · intro hs1 hs2
    simp only [String.toList] at hs1 hs2
    unfold format_commit_message_v2
    simp [h1, hs1, hs2, intercalate_triple, hsep, List.append_assoc]

/-- Witness for claim C5 (amended) at a footer with two issue references. -/
theorem claim_C5_amended_witness :
    formattedFooterV1 "Fixes #42 and #7".toList
        = List.intercalate "\n".toList
            ((findIssueRefs "Fixes #42 and #7".toList).map (fun r => "Soluciona: #".toList ++ r))
    ∧ format_commit_message_v1 fillId "fix".toList [] "S".toList [] [] "Fixes #42 and #7".toList
        = headerV1 "fix".toList [] (normSubjectV1 "S".toList) ++ "\n\n".toList
            ++ formattedFooterV1 "Fixes #42 and #7".toList
    ∧ format_commit_message_v2 "fix".toList [] "S".toList [] [] "Fixes #42 and #7".toList
        = headerV2 "fix".toList [] (normSubjectV2 "S".toList) ++ "\n\n".toList
            ++ ("Soluciona: ".toList ++ "Fixes #42 and #7".toList) :=
  ⟨(claim_C5_amended fillId "fix".toList [] "S".toList "Fixes #42 and #7".toList
      (by decide) (by decide) (by decide) (by decide) (by decide)).1,
   (claim_C5_amended fillId "fix".toList [] "S".toList "Fixes #42 and #7".toList
      (by decide) (by decide) (by decide) (by decide) (by decide)).2.1,
   (claim_C5_amended fillId "fix".toList [] "S".toList "Fixes #42 and #7".toList
      (by decide) (by decide) (by decide) (by decide) (by decide)).2.2 (by decide) (by decide)⟩

/-- Claim C7: variant 1's header formatting is idempotent on an already
well-formed subject — for every type and scope, and every non-empty subject
whose first character is uppercase, that does not end with a period and whose
length is at most 50, the subject normalization fixes the subject, so
re-running it on its own output leaves the header unchanged. -/
theorem claim_C7_idempotent (t sc s : List Char) (hne : s ≠ [])
    (hup : ∀ c, s.head? = some c → c.isUpper = true)
    (hnp : s.getLast? ≠ some '.') (hlen : s.length ≤ subjectMaxLength) :
    normSubjectV1 s = s
    ∧ normSubjectV1 (normSubjectV1 s) = normSubjectV1 s
    ∧ headerV1 t sc (normSubjectV1 (normSubjectV1 s)) = headerV1 t sc (normSubjectV1 s) := by
  have hfix : normSubjectV1 s = s := by
    unfold normSubjectV1
    have hcap : capitalizeV1 s = s := by
      cases s with
      | nil => rfl
      | cons c rest => simp [capitalizeV1, toUpper_of_isUpper c (hup c rfl)]
    rw [hcap, stripTrailingPeriod_of_no_period _ hnp]
    unfold truncateV1
    rw [if_neg (by omega)]
  exact ⟨hfix, by simp [hfix], by simp [hfix]⟩

/-- Witness for claim C7 at a concrete well-formed header. -/
theorem claim_C7_idempotent_witness :
    normSubjectV1 "Add login".toList = "Add login".toList
    ∧ normSubjectV1 (normSubjectV1 "Add login".toList) = normSubjectV1 "Add login".toList
    ∧ headerV1 "feat".toList "ui".toList (normSubjectV1 (normSubjectV1 "Add login".toList))
        = headerV1 "feat".toList "ui".toList (normSubjectV1 "Add login".toList) :=
  claim_C7_idempotent "feat".toList "ui".toList "Add login".toList (by decide)
    (fun c h => by simp at h; rw [← h]; decide) (by decide) (by decide)

/-- Claim C8: in variant 1's review loop, git commit runs exactly when the
user's (stripped, uppercased) choice is `A`, which commits the displayed
message and ends the loop; `C` ends the loop with no commit, and every other
choice — regenerate, edit, or invalid input — returns to reviewing.  In
variant 2, however, the reachable choice `previous` aborts the loop with a
`KeyError` on the absent `formatted` key instead of returning to reviewing. -/
theorem claim_C8_review_loop :
    (∀ (st : ReviewStateV1) (input regen edited : List Char),
      (handleChoiceV1 st input regen edited = .committed st.formatted
          ↔ pyUpper (pyStrip input) = "A".toList)
      ∧ ((∃ m, handleChoiceV1 st input regen edited = .committed m)
          ↔ pyUpper (pyStrip input) = "A".toList)
      ∧ (handleChoiceV1 st input regen edited = .cancelled
          ↔ pyUpper (pyStrip input) = "C".toList)
      ∧ (pyUpper (pyStrip input) ≠ "A".toList → pyUpper (pyStrip input) ≠ "C".toList →
          ∃ st', handleChoiceV1 st input regen edited = .review st'))
    ∧ handleChoiceV2 (pushDraft (pushDraft initReview draftA) draftC) "P".toList keepAll
        = .keyError "formatted".toList := by
  constructor
  · intro st input regen edited
    unfold handleChoiceV1
    by_cases hA : pyUpper (pyStrip input) = ['A']
    · simp [hA]
    · by_cases hR : pyUpper (pyStrip input) = ['R']
      · by_cases hreg : regen = []
        · simp [hA, hR, hreg]
        · simp [hA, hR, hreg]
      · by_cases hE : pyUpper (pyStrip input) = ['E']
        · simp [hA, hR, hE]
        · by_cases hC : pyUpper (pyStrip input) = ['C']
          · simp [hA, hR, hE, hC]
          · simp [hA, hR, hE, hC]
  · decide

/-- Witness for claim C8: the invalid choice `x` returns to reviewing. -/
theorem claim_C8_review_loop_witness :
    ∃ st', handleChoiceV1 { history := ["m".toList], idx := 0, formatted := "m".toList }
        "x".toList [] [] = .review st' :=
  (claim_C8_review_loop.1 { history := ["m".toList], idx := 0, formatted := "m".toList }
      "x".toList [] []).2.2.2 (by decide) (by decide)

end CommitGen

